import Mathlib

/-!
Shallow embedding of the FiPulse chart widget
(charts/fipulse-widget/src/widget.ts) and verification of its
specification claims.

Modelling conventions:
* JavaScript numbers (prices, volumes) are modelled as rationals;
  UTC-second timestamps and crosshair times as integers.
* Nullable object references owned by the widget (chart, series handles,
  sdk, legend element) are modelled as `Option Unit`; a member access on
  such a reference is recorded through `derefEffect`, which emits a
  `nullDeref` effect when the reference is null — the embedding of a
  JavaScript TypeError.
* Calls into the two external collaborators (charting library, market
  data SDK) are modelled as opaque effects appended to an effect trace,
  in source order.  The legend DOM update is modelled structurally: the
  data that the HTML template interpolates is collected in
  `LegendModel` instead of a markup string.
* The local timezone facility (`new Date(ts*1000).getTimezoneOffset()`)
  is modelled as an explicit parameter `tz : Int → Int` giving the
  offset in minutes for a given UTC-second timestamp.
-/

namespace FiPulse

/-- Domain candle record delivered by the market-data SDK
(type `Candle` of the SDK; the spec data model notes the transaction
count defaults to 0 if absent, hence `Option Nat`). -/
structure Candle where
  Timestamp : Int
  OpenPrice : ℚ
  HighPrice : ℚ
  LowPrice : ℚ
  ClosePrice : ℚ
  VolumeIn : ℚ
  VolumeOut : ℚ
  TransactionCount : Option Nat
deriving DecidableEq, Repr

/-- Snapshot container delivered by the SDK (`ChartData`). -/
structure ChartData where
  candles : List Candle
  lastUpdate : Option Int
  isLoading : Bool
  error : Option String
deriving DecidableEq, Repr

/-- Live trade tick (`RealTimeTrade`). -/
structure RealTimeTrade where
  Price : ℚ
  Amount : ℚ
  USD : ℚ
  TradeTime : Int
deriving DecidableEq, Repr

/-- Widget options after the constructor applied its defaults
(showVolume := false, priceSeriesType := "candle", theme := "light",
legendStyle := "complex").  The four callback options are modelled by
presence flags. -/
structure WidgetOptions where
  container : String
  tokenId : String
  symbol : Option String
  showVolume : Bool
  priceSeriesType : String
  theme : String
  legendStyle : String
  hasOnError : Bool
  hasOnDataUpdate : Bool
  hasOnTrade : Bool
  hasOnConnectionChange : Bool
deriving DecidableEq, Repr

/-- Point shape fed to the candlestick series
(result of convertCandleToChartData). -/
structure ChartPoint where
  time : Int
  open_ : ℚ
  high : ℚ
  low : ℚ
  close : ℚ
deriving DecidableEq, Repr

/-- Point shape fed to the line series (result of convertCandleToAreaData). -/
structure AreaPoint where
  time : Int
  value : ℚ
deriving DecidableEq, Repr

/-- Point shape fed to the volume histogram series
(result of convertCandleToVolumeData). -/
structure VolumePoint where
  time : Int
  value : ℚ
  color : String
deriving DecidableEq, Repr

/-- Data interpolated into the hovered-point section of the legend HTML. -/
structure LegendHover where
  open_ : ℚ
  high : ℚ
  low : ℚ
  close : ℚ
  volume : Option ℚ
  changePct : Option ℚ
  fluctuationPct : Option ℚ
deriving DecidableEq, Repr

/-- Data interpolated into the legend HTML (token name, price, 24h rate,
optional hovered-point section). -/
structure LegendModel where
  tokenName : String
  price : Option ℚ
  rate24h : ℚ
  hover : Option LegendHover
deriving DecidableEq, Repr

/-- One observable interaction of the widget with its collaborators (or a
JavaScript TypeError raised by accessing a member of a null reference). -/
inductive ChartEffect where
  | setChartData (pts : List ChartPoint)
  | setLineData (pts : List AreaPoint)
  | setVolumeData (pts : List VolumePoint)
  | updateChartPoint (p : ChartPoint)
  | updateLinePoint (p : AreaPoint)
  | updateVolumePoint (p : VolumePoint)
  | fitContent
  | scrollToRealTime
  | legendRender (m : LegendModel)
  | onTradeCall
  | onDataUpdateCall
  | onErrorCall (msg : String)
  | connectWebSocket
  | sdkInitialize (tokenId : String)
  | scheduleSubscribeWait (delayMs : Nat) (tokenId : String)
  | subscribe (tokenId : String)
  | sdkDestroy
  | chartRemove
  | nullDeref (field : String)
deriving DecidableEq, Repr

/-- Mutable state of a FiPulseChartWidget instance (its private fields). -/
structure WidgetState where
  chart : Option Unit
  legendElement : Option Unit
  candlestickSeries : Option Unit
  lineSeries : Option Unit
  volumeSeries : Option Unit
  sdk : Option Unit
  chartData : ChartData
  currentPrice : Option ℚ
  priceChange : ℚ
  previousCandleCount : Nat
  isInitialLoad : Bool
  previousPrice : ℚ
deriving DecidableEq, Repr

/-- Member access on a nullable reference: emits a TypeError effect when
the reference is null, nothing otherwise. -/
def derefEffect (h : Option Unit) (fieldName : String) : List ChartEffect :=
  match h with
  | some _ => []
  | none => [ChartEffect.nullDeref fieldName]

/-- Source convertCandleToChartData: shift the UTC timestamp by the local
timezone offset (minutes, times 60) and copy the OHLC fields. -/
def convertCandleToChartData (tz : Int → Int) (candle : Candle) : ChartPoint :=
  let utcTimestamp := candle.Timestamp
  let timezoneOffsetSeconds := tz utcTimestamp * 60
  let localTimestamp := utcTimestamp - timezoneOffsetSeconds
  { time := localTimestamp
    open_ := candle.OpenPrice
    high := candle.HighPrice
    low := candle.LowPrice
    close := candle.ClosePrice }

/-- Source convertCandleToAreaData: shifted time plus the close price. -/
def convertCandleToAreaData (tz : Int → Int) (candle : Candle) : AreaPoint :=
  let utcTimestamp := candle.Timestamp
  let timezoneOffsetSeconds := tz utcTimestamp * 60
  let localTimestamp := utcTimestamp - timezoneOffsetSeconds
  { time := localTimestamp, value := candle.ClosePrice }

/-- Source convertCandleToVolumeData: shifted time, inbound (USD) volume,
and an up/down color depending on direction and theme. -/
def convertCandleToVolumeData (opts : WidgetOptions) (tz : Int → Int)
    (candle : Candle) : VolumePoint :=
  let utcTimestamp := candle.Timestamp
  let timezoneOffsetSeconds := tz utcTimestamp * 60
  let localTimestamp := utcTimestamp - timezoneOffsetSeconds
  let isUp := candle.ClosePrice ≥ candle.OpenPrice
  let isDark := opts.theme = "dark"
  let color :=
    if isUp then (if isDark then "#00d4aa80" else "#26a69a40")
    else (if isDark then "#ff6b6b80" else "#ef535040")
  { time := localTimestamp, value := candle.VolumeIn, color := color }

/-- Crosshair-move parameter, restricted to what updateLegend reads:
the crosshair time and the result of seriesData.get(candlestickSeries)
(absent when the map is missing or holds no entry for the series). -/
structure CrosshairParam where
  time : Int
  seriesData : Option ChartPoint
deriving DecidableEq, Repr

/-- Predicate of the candle search in updateLegend: the candle's
locally-shifted timestamp is within 60 seconds of the crosshair time. -/
def candleMatchesCrosshair (tz : Int → Int) (crosshairTime : Int)
    (candle : Candle) : Bool :=
  let utcTimestamp := candle.Timestamp
  let timezoneOffsetSeconds := tz utcTimestamp * 60
  let localTimestamp := utcTimestamp - timezoneOffsetSeconds
  decide ((localTimestamp - crosshairTime).natAbs < 60)

/-- Candle search of updateLegend: the first candle (Array.prototype.find)
whose locally-shifted timestamp is within 60 seconds of the crosshair
time. -/
def findMatchingCandle (tz : Int → Int) (candles : List Candle)
    (crosshairTime : Int) : Option Candle :=
  candles.find? (candleMatchesCrosshair tz crosshairTime)

/-- Source updateLegend: early-returns when the legend element or the
chart is null; otherwise collects the legend data (token name, current
price, 24h rate, and — when a crosshair sample for the candlestick
series is present — the hovered OHLC with the matched candle's volume
and per-bar change/fluctuation percentages) and writes the legend HTML
(the innerHTML assignment is the deref of legendElement). -/
def updateLegend (opts : WidgetOptions) (st : WidgetState) (tz : Int → Int)
    (crosshairParam : Option CrosshairParam) : List ChartEffect :=
  if st.legendElement.isNone || st.chart.isNone then []
  else
    let tokenName := opts.symbol.getD "Token"
    let hover : Option LegendHover :=
      match crosshairParam with
      | none => none
      | some p =>
        if p.time ≠ 0 ∧ st.candlestickSeries.isSome then
          match p.seriesData with
          | none => none
          | some data =>
            match findMatchingCandle tz st.chartData.candles p.time with
            | some matchingCandle =>
              let candleChange :=
                if matchingCandle.OpenPrice > 0 then
                  (matchingCandle.ClosePrice - matchingCandle.OpenPrice)
                    / matchingCandle.OpenPrice * 100
                else 0
              let candleFluctuation :=
                if matchingCandle.OpenPrice > 0 then
                  (matchingCandle.HighPrice - matchingCandle.LowPrice)
                    / matchingCandle.OpenPrice * 100
                else 0
              some { open_ := data.open_, high := data.high, low := data.low
                     close := data.close
                     volume := some matchingCandle.VolumeIn
                     changePct := some candleChange
                     fluctuationPct := some candleFluctuation }
            | none =>
              some { open_ := data.open_, high := data.high, low := data.low
                     close := data.close
                     volume := none, changePct := none, fluctuationPct := none }
        else none
    derefEffect st.legendElement "legendElement" ++
      [ChartEffect.legendRender
        { tokenName := tokenName, price := st.currentPrice
          rate24h := st.priceChange, hover := hover }]

/-- Source updateChart: full replace.  Early-returns on an empty candle
list; otherwise setData on the active price series, setData on the
volume series when volume is shown, then fitContent on the time scale. -/
def updateChart (opts : WidgetOptions) (st : WidgetState) (tz : Int → Int)
    (data : ChartData) : List ChartEffect :=
  if data.candles.length = 0 then []
  else
    (if opts.priceSeriesType = "candle" ∧ st.candlestickSeries.isSome then
      derefEffect st.candlestickSeries "candlestickSeries" ++
        [ChartEffect.setChartData
          (data.candles.map (convertCandleToChartData tz))]
    else if opts.priceSeriesType = "line" ∧ st.lineSeries.isSome then
      derefEffect st.lineSeries "lineSeries" ++
        [ChartEffect.setLineData
          (data.candles.map (convertCandleToAreaData tz))]
    else []) ++
    (if opts.showVolume ∧ st.volumeSeries.isSome then
      derefEffect st.volumeSeries "volumeSeries" ++
        [ChartEffect.setVolumeData
          (data.candles.map (convertCandleToVolumeData opts tz))]
    else []) ++
    (if st.chart.isSome ∧ data.candles.length > 0 then
      derefEffect st.chart "chart" ++ [ChartEffect.fitContent]
    else [])

/-- Source updateSingleCandle: record the candle's close as the current
price, upsert one point on the active price series, upsert one volume
point when the (always truthy) theme option and the volume series are
set, then scroll the time scale to real time. -/
def updateSingleCandle (opts : WidgetOptions) (st : WidgetState)
    (tz : Int → Int) (candle : Candle) : WidgetState × List ChartEffect :=
  let st := { st with currentPrice := some candle.ClosePrice }
  let priceEffects :=
    if opts.priceSeriesType = "candle" ∧ st.candlestickSeries.isSome then
      derefEffect st.candlestickSeries "candlestickSeries" ++
        [ChartEffect.updateChartPoint (convertCandleToChartData tz candle)]
    else if opts.priceSeriesType = "line" ∧ st.lineSeries.isSome then
      derefEffect st.lineSeries "lineSeries" ++
        [ChartEffect.updateLinePoint (convertCandleToAreaData tz candle)]
    else []
  let volumeEffects :=
    if opts.theme ≠ "" ∧ st.volumeSeries.isSome then
      derefEffect st.volumeSeries "volumeSeries" ++
        [ChartEffect.updateVolumePoint (convertCandleToVolumeData opts tz candle)]
    else []
  let scrollEffects :=
    if st.chart.isSome then
      derefEffect st.chart "chart" ++ [ChartEffect.scrollToRealTime]
    else []
  (st, priceEffects ++ volumeEffects ++ scrollEffects)

/-- Source constant MAX_INCREMENTAL_CANDLES. -/
def MAX_INCREMENTAL_CANDLES : Int := 50

/-- Source handleChartUpdate: store the snapshot; if the delivery is
incremental (not the initial load, non-empty, 0 ≤ diff ≤ 50) with diff 0
or 1 upsert the last candle, with 2 ≤ diff ≤ 50 do a full replace;
otherwise do a full replace and clear the initial-load flag.  Then
update the stored count, current price, 24h price change, legend, and
fire onDataUpdate. -/
def handleChartUpdate (opts : WidgetOptions) (st : WidgetState)
    (tz : Int → Int) (data : ChartData) : WidgetState × List ChartEffect :=
  let st := { st with chartData := data }
  let previousCount := st.previousCandleCount
  let currentCount := data.candles.length
  let candleCountDiff : Int := (currentCount : Int) - (previousCount : Int)
  let isIncrementalUpdate : Prop :=
    st.isInitialLoad = false ∧ currentCount > 0 ∧
      candleCountDiff ≥ 0 ∧ candleCountDiff ≤ MAX_INCREMENTAL_CANDLES
  let step1 : WidgetState × List ChartEffect :=
    if isIncrementalUpdate ∧ data.candles.length > 0 then
      if candleCountDiff = 0 ∨ candleCountDiff = 1 then
        match data.candles.getLast? with
        | some latestCandle => updateSingleCandle opts st tz latestCandle
        | none => (st, [])  -- unreachable: the guard forces a non-empty list
      else (st, updateChart opts st tz data)
    else
      ({ st with isInitialLoad := false }, updateChart opts st tz data)
  let st := step1.1
  let branchEffects := step1.2
  let st := { st with previousCandleCount := currentCount }
  let step2 : WidgetState × List ChartEffect :=
    if data.candles.length > 0 then
      match data.candles.getLast? with
      | some latestCandle =>
        let st := { st with currentPrice := some latestCandle.ClosePrice }
        let st :=
          if data.candles.length > 1 then
            match data.candles.head? with
            | some firstCandle =>
              if firstCandle.OpenPrice > 0 then
                { st with priceChange :=
                    (latestCandle.ClosePrice - firstCandle.OpenPrice)
                      / firstCandle.OpenPrice * 100 }
              else st
            | none => st  -- unreachable: the list is non-empty
          else st
        (st, if opts.legendStyle ≠ "none" then updateLegend opts st tz none
             else [])
      | none => (st, [])  -- unreachable: the guard forces a non-empty list
    else (st, [])
  let st := step2.1
  let legendEffects := step2.2
  let callbackEffects :=
    if opts.hasOnDataUpdate then [ChartEffect.onDataUpdateCall] else []
  (st, branchEffects ++ legendEffects ++ callbackEffects)

/-- Source handleTrade: record the trade price; refresh the legend; if
there is at least one candle and the trade's minute bucket is within a
0–120 second forward window of the last candle, merge the trade into a
copy of that candle, store it at the last index and upsert it; finally
fire onTrade. -/
def handleTrade (opts : WidgetOptions) (st : WidgetState) (tz : Int → Int)
    (trade : RealTimeTrade) : WidgetState × List ChartEffect :=
  let st := { st with currentPrice := some trade.Price
                      previousPrice := trade.Price }
  let legendEffects :=
    if opts.legendStyle ≠ "none" then updateLegend opts st tz none else []
  let step : WidgetState × List ChartEffect :=
    if st.chartData.candles.length > 0 then
      match st.chartData.candles.getLast? with
      | some latestCandle =>
        let tradeMinuteTimestamp := trade.TradeTime.fdiv 60 * 60
        let latestCandleTimestamp := latestCandle.Timestamp
        let timeDiff := tradeMinuteTimestamp - latestCandleTimestamp
        if 0 ≤ timeDiff ∧ timeDiff ≤ 120 then
          let updatedCandle : Candle :=
            { latestCandle with
              ClosePrice := trade.Price
              HighPrice := max latestCandle.HighPrice trade.Price
              LowPrice := min latestCandle.LowPrice trade.Price
              VolumeIn := latestCandle.VolumeIn + trade.USD
              VolumeOut := latestCandle.VolumeOut + trade.Amount
              TransactionCount := some (latestCandle.TransactionCount.getD 0 + 1) }
          let st := { st with chartData := { st.chartData with
              candles := st.chartData.candles.set
                (st.chartData.candles.length - 1) updatedCandle } }
          updateSingleCandle opts st tz updatedCandle
        else (st, [])
      | none => (st, [])  -- unreachable: the guard forces a non-empty list
    else (st, [])
  let st := step.1
  let mergeEffects := step.2
  let tradeCallback :=
    if opts.hasOnTrade then [ChartEffect.onTradeCall] else []
  (st, legendEffects ++ mergeEffects ++ tradeCallback)

/-- Crosshair-move subscription body registered in initializeChart:
refresh the legend only for the complex legend style. -/
def crosshairMoveHandler (opts : WidgetOptions) (st : WidgetState)
    (tz : Int → Int) (param : Option CrosshairParam) : List ChartEffect :=
  if opts.legendStyle = "complex" then updateLegend opts st tz param else []

/-- Source destroy: destroy the SDK and null its reference, remove the
chart and null its reference.  Series handles and the legend element are
not cleared. -/
def destroy (st : WidgetState) : WidgetState × List ChartEffect :=
  let step1 : WidgetState × List ChartEffect :=
    if st.sdk.isSome then
      ({ st with sdk := none }, derefEffect st.sdk "sdk" ++ [ChartEffect.sdkDestroy])
    else (st, [])
  let st1 := step1.1
  let step2 : WidgetState × List ChartEffect :=
    if st1.chart.isSome then
      ({ st1 with chart := none },
        derefEffect st1.chart "chart" ++ [ChartEffect.chartRemove])
    else (st1, [])
  (step2.1, step1.2 ++ step2.2)

/-- Recognizes a single-point upsert on a price series (candlestick or
line update call). -/
def effectIsPriceUpsert : ChartEffect → Bool
  | ChartEffect.updateChartPoint _ => true
  | ChartEffect.updateLinePoint _ => true
  | _ => false

/-- Recognizes a single-point upsert on the volume series. -/
def effectIsVolumeUpsert : ChartEffect → Bool
  | ChartEffect.updateVolumePoint _ => true
  | _ => false

/-- Recognizes a full series replace (setData on any series). -/
def effectIsSetData : ChartEffect → Bool
  | ChartEffect.setChartData _ => true
  | ChartEffect.setLineData _ => true
  | ChartEffect.setVolumeData _ => true
  | _ => false

/-- Recognizes the TypeError effect of a null dereference. -/
def effectIsNullDeref : ChartEffect → Bool
  | ChartEffect.nullDeref _ => true
  | _ => false

/-- Number of price-series single-point upserts in an effect trace. -/
def countPriceUpserts (effs : List ChartEffect) : Nat :=
  effs.countP effectIsPriceUpsert

/-- Number of volume-series single-point upserts in an effect trace. -/
def countVolumeUpserts (effs : List ChartEffect) : Nat :=
  effs.countP effectIsVolumeUpsert

/-- Number of full series replaces in an effect trace. -/
def countSetData (effs : List ChartEffect) : Nat :=
  effs.countP effectIsSetData

/-- Handle/option consistency established by initializeChart: the chart
exists, the price series type is one of the two type-checked values and
its series handle exists, the volume series exists exactly when volume
is shown, and the theme is one of the two type-checked values. -/
def StateWf (opts : WidgetOptions) (st : WidgetState) : Prop :=
  st.chart.isSome = true ∧
  (opts.priceSeriesType = "candle" ∨ opts.priceSeriesType = "line") ∧
  (opts.priceSeriesType = "candle" ↔ st.candlestickSeries.isSome = true) ∧
  (opts.priceSeriesType = "line" ↔ st.lineSeries.isSome = true) ∧
  (opts.showVolume = true ↔ st.volumeSeries.isSome = true) ∧
  (opts.theme = "light" ∨ opts.theme = "dark")

/-- Widget state as the field initializers leave it before initialize()
runs. -/
def initialWidgetState : WidgetState :=
  { chart := none, legendElement := none, candlestickSeries := none
    lineSeries := none, volumeSeries := none, sdk := none
    chartData := { candles := [], lastUpdate := none, isLoading := true
                   error := none }
    currentPrice := none, priceChange := 0, previousCandleCount := 0
    isInitialLoad := true, previousPrice := 0 }

/-- Source initializeChart: resolve the container (`container` is the
already-resolved DOM lookup result); throw synchronously when it does
not exist, otherwise create the chart, the price series selected by
priceSeriesType, the volume series when showVolume is set, and the
legend element for the simple/complex legend styles. -/
def initializeChart (opts : WidgetOptions) (container : Option Unit)
    (st : WidgetState) : Except String WidgetState :=
  match container with
  | none => Except.error ("Chart container not found: " ++ opts.container)
  | some _ => Except.ok { st with
      chart := some ()
      candlestickSeries :=
        if opts.priceSeriesType = "candle" then some () else none
      lineSeries := if opts.priceSeriesType = "line" then some () else none
      volumeSeries := if opts.showVolume then some () else none
      legendElement :=
        if opts.legendStyle = "simple" ∨ opts.legendStyle = "complex" then
          some ()
        else none }

/-- Source initializeSDK: construct the SDK, register the four callback
sinks and open the WebSocket transport. -/
def initializeSDK (st : WidgetState) : WidgetState × List ChartEffect :=
  ({ st with sdk := some () }, [ChartEffect.connectWebSocket])

/-- Source constant: the fixed grace delay before the subscribe wait. -/
def SUBSCRIBE_DELAY_MS : Nat := 1000

/-- Synchronous part of source loadTokenData: reset the load state,
request historical data through sdk.initialize, and schedule the
delayed subscribe wait.  The try/catch around sdk.initialize is not
modelled (HTTP failure is outside these claims). -/
def loadTokenData (st : WidgetState) (tokenId : String) :
    WidgetState × List ChartEffect :=
  if st.sdk.isNone then (st, [])
  else
    let st := { st with isInitialLoad := true, previousCandleCount := 0
                        chartData := { candles := [], lastUpdate := none
                                       isLoading := true, error := none } }
    (st, derefEffect st.sdk "sdk" ++
      [ChartEffect.sdkInitialize tokenId,
       ChartEffect.scheduleSubscribeWait SUBSCRIBE_DELAY_MS tokenId])

/-- Source initialize(): initializeSDK, then initializeChart, then — when
the SDK and a token id are present — loadTokenData.  A throw in
initializeChart aborts the remaining steps. -/
def initializeWidget (opts : WidgetOptions) (container : Option Unit) :
    Except String WidgetState × List ChartEffect :=
  let step1 := initializeSDK initialWidgetState
  match initializeChart opts container step1.1 with
  | Except.error e => (Except.error e, step1.2)
  | Except.ok st2 =>
    if st2.sdk.isSome ∧ opts.tokenId ≠ "" then
      let step3 := loadTokenData st2 opts.tokenId
      (Except.ok step3.1, step1.2 ++ step3.2)
    else (Except.ok st2, step1.2)

/-- Result of running the widget constructor: whether a handle was
returned to the caller, and the outcome of the asynchronous
initialization sequence. -/
structure ConstructResult where
  handleReturned : Bool
  init : Except String WidgetState
  effects : List ChartEffect
deriving Repr

/-- Widget constructor: it starts initialize() without awaiting it
(initialize().then(...) with no rejection handler), so it always returns
the instance to the caller; a failure inside the initialization sequence
is only an unhandled promise rejection. -/
def constructWidget (opts : WidgetOptions) (container : Option Unit) :
    ConstructResult :=
  let r := initializeWidget opts container
  { handleReturned := true, init := r.1, effects := r.2 }

/-- Source waitForWebSocketConnection's checkConnection loop: at poll k
the subscription status is read first; if connected resolve true, else
if the elapsed time exceeds the ceiling resolve false, else re-arm a
100 ms timer.  Poll k is modelled as happening at elapsed time 100·k
milliseconds; the extra fuel argument only bounds the recursion and is
never exhausted when it starts at maxWaitMs / 100 + 2. -/
def checkConnection (connected : Nat → Bool) (maxWaitMs : Nat) :
    Nat → Nat → Bool
  | _, 0 => false
  | k, fuel + 1 =>
    if connected k then true
    else if 100 * k > maxWaitMs then false
    else checkConnection connected maxWaitMs (k + 1) fuel

/-- Source waitForWebSocketConnection (default ceiling 5000 ms). -/
def waitForWebSocketConnection (connected : Nat → Bool) (maxWaitMs : Nat) :
    Bool :=
  checkConnection connected maxWaitMs 0 (maxWaitMs / 100 + 2)

/-- Delayed subscribe continuation scheduled by loadTokenData: give up
silently when the SDK reference is already gone, otherwise wait for the
connection and subscribe only when the wait resolved true.  No error
callback is invoked on either failure path. -/
def delayedSubscribe (sdkPresent : Bool) (connected : Nat → Bool)
    (tokenId : String) : List ChartEffect :=
  if !sdkPresent then []
  else if waitForWebSocketConnection connected 5000 then
    [ChartEffect.subscribe tokenId]
  else []

/-- Fixed timezone facility used by concrete test inputs: UTC (offset 0
minutes everywhere). -/
def tzZero : Int → Int := fun _ => 0

/-- Concrete candle used by test inputs. -/
def demoCandleA : Candle :=
  { Timestamp := 100, OpenPrice := 1, HighPrice := 1, LowPrice := 1
    ClosePrice := 1, VolumeIn := 0, VolumeOut := 0, TransactionCount := some 0 }

/-- Concrete candle 60 seconds after demoCandleA. -/
def demoCandleB : Candle := { demoCandleA with Timestamp := 160 }

/-- Concrete second candle with a higher close, used by test inputs. -/
def demoCandleC : Candle :=
  { Timestamp := 160, OpenPrice := 1, HighPrice := 3, LowPrice := 1
    ClosePrice := 2, VolumeIn := 5, VolumeOut := 4, TransactionCount := some 2 }

/-- Concrete widget options (candlestick series, volume shown, complex
legend, defaults otherwise). -/
def demoOptions : WidgetOptions :=
  { container := "#crypto-chart", tokenId := "1-0xabc"
    symbol := some "BTC/USDT", showVolume := true
    priceSeriesType := "candle", theme := "light", legendStyle := "complex"
    hasOnError := false, hasOnDataUpdate := false, hasOnTrade := false
    hasOnConnectionChange := false }

/-- Concrete post-initialization state holding one candle. -/
def demoReadyState : WidgetState :=
  { chart := some (), legendElement := some (), candlestickSeries := some ()
    lineSeries := none, volumeSeries := some (), sdk := some ()
    chartData := { candles := [demoCandleA], lastUpdate := none
                   isLoading := false, error := none }
    currentPrice := some 1, priceChange := 0, previousCandleCount := 1
    isInitialLoad := false, previousPrice := 0 }

/-- Concrete crosshair sample at the shifted time of demoCandleA. -/
def demoCrosshair : CrosshairParam :=
  { time := 100, seriesData := some (convertCandleToChartData tzZero demoCandleA) }

/-- Concrete trade 25 seconds after demoCandleA (minute bucket 120,
within the merge window). -/
def demoTrade : RealTimeTrade :=
  { Price := 3, Amount := 2, USD := 6, TradeTime := 125 }

/-- Concrete snapshot holding two candles. -/
def demoSnapshot2 : ChartData :=
  { candles := [demoCandleA, demoCandleC], lastUpdate := none
    isLoading := false, error := none }

/-- Concrete empty snapshot. -/
def demoEmptySnapshot : ChartData :=
  { candles := [], lastUpdate := none, isLoading := false, error := none }

/-- Concrete state after a first delivery that carried no candles:
previous count 0, initial load already done. -/
def demoEmptyStateP0 : WidgetState :=
  { demoReadyState with previousCandleCount := 0
                        chartData := demoEmptySnapshot }

/-- Concrete state with previous count 5 (a shrinking snapshot gives a
negative diff). -/
def demoStateP5 : WidgetState := { demoReadyState with previousCandleCount := 5 }

/-- Concrete state right before the first delivery. -/
def demoFreshState : WidgetState :=
  { demoReadyState with isInitialLoad := true, previousCandleCount := 0 }

/-- Concrete connectivity trace that first reports connected at poll 51,
just after the 5-second ceiling (elapsed 5100 ms > 5000 ms). -/
def demoConnectedLate : Nat → Bool := fun k => decide (51 ≤ k)

/-- Concrete connectivity trace that never reports connected. -/
def demoNeverConnected : Nat → Bool := fun _ => false

/-- Dereferencing a non-null reference emits nothing. -/
theorem derefEffect_of_isSome (h : Option Unit) (n : String)
    (hs : h.isSome = true) : derefEffect h n = [] := by
  cases h with
  | none => simp at hs
  | some u => rfl

/-- Writing at the last index of a non-empty list replaces its last
element. -/
theorem set_last_eq_dropLast_append {α : Type} (l : List α) (x : α)
    (h : l ≠ []) : l.set (l.length - 1) x = l.dropLast ++ [x] := by
  induction l with
  | nil => simp at h
  | cons a t ih =>
    cases t with
    | nil => simp
    | cons b t' =>
      have ih' := ih (by simp)
      simp only [List.length_cons, Nat.add_sub_cancel] at ih' ⊢
      simp only [List.set_cons_succ,
        List.dropLast_cons_of_ne_nil (by simp : b :: t' ≠ []),
        List.cons_append]
      rw [ih']

/-- The legend routine emits no series calls: no upserts and no full
replaces. -/
theorem updateLegend_no_series_calls (opts : WidgetOptions)
    (st : WidgetState) (tz : Int → Int) (param : Option CrosshairParam) :
    List.countP effectIsPriceUpsert (updateLegend opts st tz param) = 0 ∧
    List.countP effectIsVolumeUpsert (updateLegend opts st tz param) = 0 ∧
    List.countP effectIsSetData (updateLegend opts st tz param) = 0 := by
  unfold updateLegend
  split
  · simp [countPriceUpserts, countVolumeUpserts, countSetData]
  · cases st.legendElement with
    | none =>
      simp [derefEffect, countPriceUpserts, countVolumeUpserts, countSetData,
        List.countP_cons, effectIsPriceUpsert, effectIsVolumeUpsert,
        effectIsSetData]
    | some u =>
      simp [derefEffect, countPriceUpserts, countVolumeUpserts, countSetData,
        List.countP_cons, effectIsPriceUpsert, effectIsVolumeUpsert,
        effectIsSetData]

/-- Effect summary of updateSingleCandle on a well-formed state: exactly
one upsert on the active price series, one volume upsert exactly when
volume is shown, no full replace, a scroll-to-real-time request, and the
only state change is the current price. -/
theorem updateSingleCandle_effects (opts : WidgetOptions) (st : WidgetState)
    (tz : Int → Int) (candle : Candle) (hwf : StateWf opts st) :
    List.countP effectIsPriceUpsert (updateSingleCandle opts st tz candle).2 = 1 ∧
    List.countP effectIsVolumeUpsert (updateSingleCandle opts st tz candle).2
      = (if opts.showVolume then 1 else 0) ∧
    List.countP effectIsSetData (updateSingleCandle opts st tz candle).2 = 0 ∧
    ChartEffect.scrollToRealTime ∈ (updateSingleCandle opts st tz candle).2 ∧
    (updateSingleCandle opts st tz candle).1
      = { st with currentPrice := some candle.ClosePrice } := by
  obtain ⟨hchart, htype, hcs, hls, hvs, htheme⟩ := hwf
  have hthemet : ¬ opts.theme = "" := by
    rcases htheme with h | h <;> simp [h]
  have hchart' := derefEffect_of_isSome st.chart "chart" hchart
  have hvols : ∀ hv : opts.showVolume = false, st.volumeSeries.isSome = false := by
    intro hv
    cases hvsb : st.volumeSeries.isSome
    · rfl
    · exact absurd (hvs.mpr hvsb) (by simp [hv])
  unfold updateSingleCandle
  rcases htype with ht | ht
  · rcases Bool.eq_false_or_eq_true opts.showVolume with hv | hv
    · refine ⟨?_, ?_, ?_, ?_, ?_⟩ <;>
        simp [ht, hv, hcs.mp ht, hvs.mp hv, hchart, hthemet,
          derefEffect_of_isSome _ _ (hcs.mp ht), hchart',
          derefEffect_of_isSome _ _ (hvs.mp hv),
          countPriceUpserts, countVolumeUpserts, countSetData,
          List.countP_append, List.countP_cons,
          effectIsPriceUpsert, effectIsVolumeUpsert, effectIsSetData]
    · refine ⟨?_, ?_, ?_, ?_, ?_⟩ <;>
        simp [ht, hv, hcs.mp ht, hvols hv, hchart, hthemet,
          derefEffect_of_isSome _ _ (hcs.mp ht), hchart',
          countPriceUpserts, countVolumeUpserts, countSetData,
          List.countP_append, List.countP_cons,
          effectIsPriceUpsert, effectIsVolumeUpsert, effectIsSetData]
  · rcases Bool.eq_false_or_eq_true opts.showVolume with hv | hv
    · refine ⟨?_, ?_, ?_, ?_, ?_⟩ <;>
        simp [ht, hv, hls.mp ht, hvs.mp hv, hchart, hthemet,
          derefEffect_of_isSome _ _ (hls.mp ht), hchart',
          derefEffect_of_isSome _ _ (hvs.mp hv),
          countPriceUpserts, countVolumeUpserts, countSetData,
          List.countP_append, List.countP_cons,
          effectIsPriceUpsert, effectIsVolumeUpsert, effectIsSetData]
    · refine ⟨?_, ?_, ?_, ?_, ?_⟩ <;>
        simp [ht, hv, hls.mp ht, hvols hv, hchart, hthemet,
          derefEffect_of_isSome _ _ (hls.mp ht), hchart',
          countPriceUpserts, countVolumeUpserts, countSetData,
          List.countP_append, List.countP_cons,
          effectIsPriceUpsert, effectIsVolumeUpsert, effectIsSetData]

/-- Effect summary of updateChart on a well-formed state and a non-empty
snapshot: a setData with the adapter-converted point list on the active
price series, a setData on the volume series exactly when volume is
shown, a fitContent request, and no single-point upserts. -/
theorem updateChart_effects (opts : WidgetOptions) (st : WidgetState)
    (tz : Int → Int) (data : ChartData) (hwf : StateWf opts st)
    (hN : data.candles.length > 0) :
    (opts.priceSeriesType = "candle" →
      ChartEffect.setChartData (data.candles.map (convertCandleToChartData tz))
        ∈ updateChart opts st tz data) ∧
    (opts.priceSeriesType = "line" →
      ChartEffect.setLineData (data.candles.map (convertCandleToAreaData tz))
        ∈ updateChart opts st tz data) ∧
    (opts.showVolume = true →
      ChartEffect.setVolumeData
          (data.candles.map (convertCandleToVolumeData opts tz))
        ∈ updateChart opts st tz data) ∧
    ChartEffect.fitContent ∈ updateChart opts st tz data ∧
    List.countP effectIsPriceUpsert (updateChart opts st tz data) = 0 ∧
    List.countP effectIsVolumeUpsert (updateChart opts st tz data) = 0 := by
  obtain ⟨hchart, htype, hcs, hls, hvs, htheme⟩ := hwf
  have hchart' := derefEffect_of_isSome st.chart "chart" hchart
  have hvols : ∀ hv : opts.showVolume = false, st.volumeSeries.isSome = false := by
    intro hv
    cases hvsb : st.volumeSeries.isSome
    · rfl
    · exact absurd (hvs.mpr hvsb) (by simp [hv])
  have hne : ¬ data.candles.length = 0 := by omega
  unfold updateChart
  rcases htype with ht | ht
  · rcases Bool.eq_false_or_eq_true opts.showVolume with hv | hv
    · refine ⟨?_, ?_, ?_, ?_, ?_, ?_⟩ <;>
        simp [ht, hv, hne, hN, hcs.mp ht, hvs.mp hv, hchart, hchart',
          derefEffect_of_isSome _ _ (hcs.mp ht),
          derefEffect_of_isSome _ _ (hvs.mp hv),
          List.countP_append, List.countP_cons,
          effectIsPriceUpsert, effectIsVolumeUpsert]
    · refine ⟨?_, ?_, ?_, ?_, ?_, ?_⟩ <;>
        simp [ht, hv, hne, hN, hcs.mp ht, hvols hv, hchart, hchart',
          derefEffect_of_isSome _ _ (hcs.mp ht),
          List.countP_append, List.countP_cons,
          effectIsPriceUpsert, effectIsVolumeUpsert]
  · rcases Bool.eq_false_or_eq_true opts.showVolume with hv | hv
    · refine ⟨?_, ?_, ?_, ?_, ?_, ?_⟩ <;>
        simp [ht, hv, hne, hN, hls.mp ht, hvs.mp hv, hchart, hchart',
          derefEffect_of_isSome _ _ (hls.mp ht),
          derefEffect_of_isSome _ _ (hvs.mp hv),
          List.countP_append, List.countP_cons,
          effectIsPriceUpsert, effectIsVolumeUpsert]
    · refine ⟨?_, ?_, ?_, ?_, ?_, ?_⟩ <;>
        simp [ht, hv, hne, hN, hls.mp ht, hvols hv, hchart, hchart',
          derefEffect_of_isSome _ _ (hls.mp ht),
          List.countP_append, List.countP_cons,
          effectIsPriceUpsert, effectIsVolumeUpsert]

/-- C6: for every candle, the price-bar point carries the candle's OHLC
fields, the line point's value is the close price, the volume point's
value is the inbound volume, and all three carry the timestamp shifted
by the local timezone offset in seconds. -/
theorem C6_adapter_fidelity (tz : Int → Int) (opts : WidgetOptions)
    (c : Candle) :
    (convertCandleToChartData tz c).open_ = c.OpenPrice ∧
    (convertCandleToChartData tz c).high = c.HighPrice ∧
    (convertCandleToChartData tz c).low = c.LowPrice ∧
    (convertCandleToChartData tz c).close = c.ClosePrice ∧
    (convertCandleToAreaData tz c).value = c.ClosePrice ∧
    (convertCandleToVolumeData opts tz c).value = c.VolumeIn ∧
    (convertCandleToChartData tz c).time = c.Timestamp - tz c.Timestamp * 60 ∧
    (convertCandleToAreaData tz c).time = c.Timestamp - tz c.Timestamp * 60 ∧
    (convertCandleToVolumeData opts tz c).time
      = c.Timestamp - tz c.Timestamp * 60 :=
  ⟨rfl, rfl, rfl, rfl, rfl, rfl, rfl, rfl, rfl⟩

/-- C5 counterexample: with the crosshair at time 159 and candles at
shifted timestamps 100 and 160, both candles are within the 60-second
tolerance and the second is strictly nearer (distance 1 versus 59), yet
the hover search returns the first candle — the selection is not the
one with the smallest distance. -/
theorem C5_counterexample :
    findMatchingCandle tzZero [demoCandleA, demoCandleB] 159 = some demoCandleA ∧
    candleMatchesCrosshair tzZero 159 demoCandleB = true ∧
    ((demoCandleB.Timestamp - tzZero demoCandleB.Timestamp * 60) - 159).natAbs
      < ((demoCandleA.Timestamp - tzZero demoCandleA.Timestamp * 60) - 159).natAbs := by
  decide

/-- C5 amended: the matched candle is the first candle in sequence order
whose locally-shifted timestamp is strictly within 60 seconds of the
crosshair time (not the nearest one). -/
theorem C5_first_within_60s (tz : Int → Int) (candles : List Candle)
    (t : Int) (c : Candle) :
    findMatchingCandle tz candles t = some c ↔
      ((c.Timestamp - tz c.Timestamp * 60) - t).natAbs < 60 ∧
      ∃ pre post, candles = pre ++ c :: post ∧
        ∀ c' ∈ pre,
          ¬ ((c'.Timestamp - tz c'.Timestamp * 60) - t).natAbs < 60 := by
  unfold findMatchingCandle
  rw [List.find?_eq_some]
  simp only [candleMatchesCrosshair, Bool.not_eq_true', decide_eq_true_eq,
    decide_eq_false_iff_not]

/-- C7: for a hovered crosshair sample whose candle search matches a
candle, the legend's per-bar change percentage is
(close − open) / open × 100 when open > 0 and 0 otherwise, and its
fluctuation percentage is (high − low) / open × 100 when open > 0 and 0
otherwise. -/
theorem C7_legend_candle_metrics (opts : WidgetOptions) (st : WidgetState)
    (tz : Int → Int) (p : CrosshairParam) (d : ChartPoint) (c : Candle)
    (hleg : st.legendElement.isSome = true) (hchart : st.chart.isSome = true)
    (hcs : st.candlestickSeries.isSome = true) (htime : p.time ≠ 0)
    (hdata : p.seriesData = some d)
    (hmatch : findMatchingCandle tz st.chartData.candles p.time = some c) :
    updateLegend opts st tz (some p) =
      [ChartEffect.legendRender
        { tokenName := opts.symbol.getD "Token"
          price := st.currentPrice
          rate24h := st.priceChange
          hover := some
            { open_ := d.open_, high := d.high, low := d.low, close := d.close
              volume := some c.VolumeIn
              changePct := some (if c.OpenPrice > 0 then
                  (c.ClosePrice - c.OpenPrice) / c.OpenPrice * 100 else 0)
              fluctuationPct := some (if c.OpenPrice > 0 then
                  (c.HighPrice - c.LowPrice) / c.OpenPrice * 100 else 0) } }] := by
  obtain ⟨u1, hu1⟩ := Option.isSome_iff_exists.mp hleg
  obtain ⟨u2, hu2⟩ := Option.isSome_iff_exists.mp hchart
  simp [updateLegend, hu1, hu2, hdata, hmatch, derefEffect, htime, hcs]

/-- C7 witness: the legend metric theorem applied to a concrete hovered
candle. -/
theorem C7_legend_candle_metrics_witness :
    demoReadyState.legendElement.isSome = true ∧
    demoReadyState.chart.isSome = true ∧
    demoReadyState.candlestickSeries.isSome = true ∧
    demoCrosshair.time ≠ 0 ∧
    demoCrosshair.seriesData = some (convertCandleToChartData tzZero demoCandleA) ∧
    findMatchingCandle tzZero demoReadyState.chartData.candles
      demoCrosshair.time = some demoCandleA ∧
    updateLegend demoOptions demoReadyState tzZero (some demoCrosshair) =
      [ChartEffect.legendRender
        { tokenName := demoOptions.symbol.getD "Token"
          price := demoReadyState.currentPrice
          rate24h := demoReadyState.priceChange
          hover := some
            { open_ := (convertCandleToChartData tzZero demoCandleA).open_
              high := (convertCandleToChartData tzZero demoCandleA).high
              low := (convertCandleToChartData tzZero demoCandleA).low
              close := (convertCandleToChartData tzZero demoCandleA).close
              volume := some demoCandleA.VolumeIn
              changePct := some (if demoCandleA.OpenPrice > 0 then
                  (demoCandleA.ClosePrice - demoCandleA.OpenPrice)
                    / demoCandleA.OpenPrice * 100 else 0)
              fluctuationPct := some (if demoCandleA.OpenPrice > 0 then
                  (demoCandleA.HighPrice - demoCandleA.LowPrice)
                    / demoCandleA.OpenPrice * 100 else 0) } }] := by
  refine ⟨rfl, rfl, rfl, by decide, rfl, by decide, ?_⟩
  exact C7_legend_candle_metrics demoOptions demoReadyState tzZero
    demoCrosshair (convertCandleToChartData tzZero demoCandleA) demoCandleA
    rfl rfl rfl (by decide) rfl (by decide)

/-- C1: on a live trade with at least one candle present, if the trade's
minute-bucket timestamp T satisfies 0 ≤ T − lastCandle.Timestamp ≤ 120
then the last candle is replaced in place by a merged copy (close =
trade price, high = max, low = min, volumes accumulated, transaction
count incremented) followed by exactly one price-series upsert; if T is
outside that window the candle sequence is unchanged. -/
theorem C1_trade_merge_window (opts : WidgetOptions) (st : WidgetState)
    (tz : Int → Int) (trade : RealTimeTrade) (latest : Candle)
    (hwf : StateWf opts st)
    (hlast : st.chartData.candles.getLast? = some latest) :
    ((0 ≤ trade.TradeTime.fdiv 60 * 60 - latest.Timestamp ∧
        trade.TradeTime.fdiv 60 * 60 - latest.Timestamp ≤ 120) →
      (handleTrade opts st tz trade).1.chartData.candles =
        st.chartData.candles.dropLast ++
          [{ latest with
              ClosePrice := trade.Price
              HighPrice := max latest.HighPrice trade.Price
              LowPrice := min latest.LowPrice trade.Price
              VolumeIn := latest.VolumeIn + trade.USD
              VolumeOut := latest.VolumeOut + trade.Amount
              TransactionCount := some (latest.TransactionCount.getD 0 + 1) }] ∧
        countPriceUpserts (handleTrade opts st tz trade).2 = 1) ∧
    (¬(0 ≤ trade.TradeTime.fdiv 60 * 60 - latest.Timestamp ∧
        trade.TradeTime.fdiv 60 * 60 - latest.Timestamp ≤ 120) →
      (handleTrade opts st tz trade).1.chartData.candles =
        st.chartData.candles) := by
  have hne : st.chartData.candles ≠ [] := by
    intro h; rw [h] at hlast; simp at hlast
  have hlen : st.chartData.candles.length > 0 := List.length_pos.mpr hne
  constructor
  · intro hwin
    simp only [handleTrade, hlast, hlen, hwin, and_self, if_true, gt_iff_lt,
      List.length_pos, ne_eq, ite_true]
    constructor
    · exact set_last_eq_dropLast_append _ _ hne
    · simp only [countPriceUpserts, List.countP_append]
      have hwf2 : StateWf opts
          { chart := st.chart, legendElement := st.legendElement
            candlestickSeries := st.candlestickSeries
            lineSeries := st.lineSeries
            volumeSeries := st.volumeSeries, sdk := st.sdk
            chartData :=
              { candles := st.chartData.candles.set
                  (st.chartData.candles.length - 1)
                  { Timestamp := latest.Timestamp
                    OpenPrice := latest.OpenPrice
                    HighPrice := max latest.HighPrice trade.Price
                    LowPrice := min latest.LowPrice trade.Price
                    ClosePrice := trade.Price
                    VolumeIn := latest.VolumeIn + trade.USD
                    VolumeOut := latest.VolumeOut + trade.Amount
                    TransactionCount :=
                      some (latest.TransactionCount.getD 0 + 1) }
                lastUpdate := st.chartData.lastUpdate
                isLoading := st.chartData.isLoading
                error := st.chartData.error }
            currentPrice := some trade.Price, priceChange := st.priceChange
            previousCandleCount := st.previousCandleCount
            isInitialLoad := st.isInitialLoad
            previousPrice := trade.Price } := by
        obtain ⟨h1, h2, h3, h4, h5, h6⟩ := hwf
        exact ⟨h1, h2, h3, h4, h5, h6⟩
      rw [(updateSingleCandle_effects opts _ tz _ hwf2).1,
        apply_ite (List.countP effectIsPriceUpsert),
        (updateLegend_no_series_calls opts _ tz _).1]
      cases opts.hasOnTrade <;>
        simp [List.countP_cons, List.countP_nil, effectIsPriceUpsert]
  · intro hwin
    simp only [handleTrade, hlast, hlen, gt_iff_lt, List.length_pos, ne_eq,
      ite_true]
    rw [if_neg hwin]

/-- C1 witness: the trade-merge theorem applied to a concrete in-window
trade. -/
theorem C1_trade_merge_window_witness :
    StateWf demoOptions demoReadyState ∧
    demoReadyState.chartData.candles.getLast? = some demoCandleA ∧
    (0 ≤ demoTrade.TradeTime.fdiv 60 * 60 - demoCandleA.Timestamp ∧
      demoTrade.TradeTime.fdiv 60 * 60 - demoCandleA.Timestamp ≤ 120) ∧
    ((handleTrade demoOptions demoReadyState tzZero demoTrade).1.chartData.candles =
      demoReadyState.chartData.candles.dropLast ++
        [{ demoCandleA with
            ClosePrice := demoTrade.Price
            HighPrice := max demoCandleA.HighPrice demoTrade.Price
            LowPrice := min demoCandleA.LowPrice demoTrade.Price
            VolumeIn := demoCandleA.VolumeIn + demoTrade.USD
            VolumeOut := demoCandleA.VolumeOut + demoTrade.Amount
            TransactionCount := some (demoCandleA.TransactionCount.getD 0 + 1) }] ∧
      countPriceUpserts
        (handleTrade demoOptions demoReadyState tzZero demoTrade).2 = 1) := by
  refine ⟨?_, rfl, ?_, ?_⟩
  · unfold StateWf; decide
  · decide
  · exact (C1_trade_merge_window demoOptions demoReadyState tzZero demoTrade
      demoCandleA (by unfold StateWf; decide) rfl).1 (by decide)

/-- C2 amended: on a non-first snapshot delivery with diff 0 or 1 that
carries at least one candle, exactly one single-point upsert occurs on
the active price series (and on the volume series when volume is
enabled), no full replace occurs, and the chart is asked to scroll to
real time. -/
theorem C2_incremental_upsert (opts : WidgetOptions) (st : WidgetState)
    (tz : Int → Int) (data : ChartData) (hwf : StateWf opts st)
    (hfirst : st.isInitialLoad = false)
    (hN : data.candles.length > 0)
    (hdiff : (data.candles.length : Int) - (st.previousCandleCount : Int) = 0 ∨
      (data.candles.length : Int) - (st.previousCandleCount : Int) = 1) :
    countPriceUpserts (handleChartUpdate opts st tz data).2 = 1 ∧
    (opts.showVolume = true →
      countVolumeUpserts (handleChartUpdate opts st tz data).2 = 1) ∧
    countSetData (handleChartUpdate opts st tz data).2 = 0 ∧
    ChartEffect.scrollToRealTime ∈ (handleChartUpdate opts st tz data).2 := by
  obtain ⟨latest, hlatest⟩ :
      ∃ l, data.candles.getLast? = some l :=
    Option.isSome_iff_exists.mp (List.getLast?_isSome.mpr
      (List.length_pos.mp hN))
  have hd0 : (data.candles.length : Int) - (st.previousCandleCount : Int) ≥ 0 := by
    rcases hdiff with h | h <;> omega
  have hd50 : (data.candles.length : Int) - (st.previousCandleCount : Int)
      ≤ MAX_INCREMENTAL_CANDLES := by
    unfold MAX_INCREMENTAL_CANDLES
    rcases hdiff with h | h <;> omega
  have hwf2 : StateWf opts
      { chart := st.chart, legendElement := st.legendElement
        candlestickSeries := st.candlestickSeries
        lineSeries := st.lineSeries
        volumeSeries := st.volumeSeries, sdk := st.sdk, chartData := data
        currentPrice := st.currentPrice, priceChange := st.priceChange
        previousCandleCount := st.previousCandleCount
        isInitialLoad := false
        previousPrice := st.previousPrice } := by
    obtain ⟨h1, h2, h3, h4, h5, h6⟩ := hwf
    exact ⟨h1, h2, h3, h4, h5, h6⟩
  have hsingle := updateSingleCandle_effects opts _ tz latest hwf2
  simp only [handleChartUpdate, hfirst, hN, hd0, hd50, hdiff, hlatest,
    and_self, and_true, true_and, if_true, ite_true, eq_self_iff_true,
    gt_iff_lt, List.length_pos, ne_eq]
  refine ⟨?_, ?_, ?_, ?_⟩
  · simp only [countPriceUpserts, List.countP_append]
    rw [hsingle.1, apply_ite (List.countP effectIsPriceUpsert),
      (updateLegend_no_series_calls opts _ tz _).1]
    cases opts.hasOnDataUpdate <;>
      simp [List.countP_cons, List.countP_nil, effectIsPriceUpsert]
  · intro hv
    simp only [countVolumeUpserts, List.countP_append]
    rw [hsingle.2.1, apply_ite (List.countP effectIsVolumeUpsert),
      (updateLegend_no_series_calls opts _ tz _).2.1]
    cases opts.hasOnDataUpdate <;>
      simp [hv, List.countP_cons, List.countP_nil, effectIsVolumeUpsert]
  · simp only [countSetData, List.countP_append]
    rw [hsingle.2.2.1, apply_ite (List.countP effectIsSetData),
      (updateLegend_no_series_calls opts _ tz _).2.2]
    cases opts.hasOnDataUpdate <;>
      simp [List.countP_cons, List.countP_nil, effectIsSetData]
  · exact List.mem_append_left _ (List.mem_append_left _ hsingle.2.2.2.1)

/-- C2 counterexample: a second delivery that carries no candles has
diff 0 and is not the first delivery, yet no upsert and no scroll
request occurs — the claim needs the snapshot to be non-empty. -/
theorem C2_counterexample :
    demoEmptyStateP0.isInitialLoad = false ∧
    (demoEmptySnapshot.candles.length : Int)
      - (demoEmptyStateP0.previousCandleCount : Int) = 0 ∧
    countPriceUpserts
      (handleChartUpdate demoOptions demoEmptyStateP0 tzZero
        demoEmptySnapshot).2 = 0 ∧
    ChartEffect.scrollToRealTime ∉
      (handleChartUpdate demoOptions demoEmptyStateP0 tzZero
        demoEmptySnapshot).2 := by
  decide

/-- C2 witness: the incremental-upsert theorem applied to a concrete
one-candle-appended delivery. -/
theorem C2_incremental_upsert_witness :
    StateWf demoOptions demoReadyState ∧
    demoReadyState.isInitialLoad = false ∧
    demoSnapshot2.candles.length > 0 ∧
    (demoSnapshot2.candles.length : Int)
      - (demoReadyState.previousCandleCount : Int) = 1 ∧
    countPriceUpserts
      (handleChartUpdate demoOptions demoReadyState tzZero demoSnapshot2).2 = 1 ∧
    ChartEffect.scrollToRealTime ∈
      (handleChartUpdate demoOptions demoReadyState tzZero demoSnapshot2).2 := by
  refine ⟨?_, rfl, by decide, by decide, ?_, ?_⟩
  · unfold StateWf; decide
  · exact (C2_incremental_upsert demoOptions demoReadyState tzZero demoSnapshot2
      (by unfold StateWf; decide) rfl (by decide) (Or.inr (by decide))).1
  · exact (C2_incremental_upsert demoOptions demoReadyState tzZero demoSnapshot2
      (by unfold StateWf; decide) rfl (by decide) (Or.inr (by decide))).2.2.2

/-- C3 amended: on a delivery that is the first since (re)subscription,
or has negative diff, or diff above 50, and that carries at least one
candle, a full replace occurs: setData with the adapter-converted point
list on the active price series (and on the volume series when volume is
enabled) and a fit-to-content request. -/
theorem C3_full_replace (opts : WidgetOptions) (st : WidgetState)
    (tz : Int → Int) (data : ChartData) (hwf : StateWf opts st)
    (hN : data.candles.length > 0)
    (hcond : st.isInitialLoad = true ∨
      (data.candles.length : Int) - (st.previousCandleCount : Int) < 0 ∨
      (data.candles.length : Int) - (st.previousCandleCount : Int) > 50) :
    (opts.priceSeriesType = "candle" →
      ChartEffect.setChartData (data.candles.map (convertCandleToChartData tz))
        ∈ (handleChartUpdate opts st tz data).2) ∧
    (opts.priceSeriesType = "line" →
      ChartEffect.setLineData (data.candles.map (convertCandleToAreaData tz))
        ∈ (handleChartUpdate opts st tz data).2) ∧
    (opts.showVolume = true →
      ChartEffect.setVolumeData
          (data.candles.map (convertCandleToVolumeData opts tz))
        ∈ (handleChartUpdate opts st tz data).2) ∧
    ChartEffect.fitContent ∈ (handleChartUpdate opts st tz data).2 := by
  have hmain : ∀ b : Bool,
      (opts.priceSeriesType = "candle" →
        ChartEffect.setChartData (data.candles.map (convertCandleToChartData tz))
          ∈ updateChart opts
            { chart := st.chart, legendElement := st.legendElement
              candlestickSeries := st.candlestickSeries
              lineSeries := st.lineSeries
              volumeSeries := st.volumeSeries, sdk := st.sdk, chartData := data
              currentPrice := st.currentPrice, priceChange := st.priceChange
              previousCandleCount := st.previousCandleCount
              isInitialLoad := b, previousPrice := st.previousPrice } tz data) ∧
      (opts.priceSeriesType = "line" →
        ChartEffect.setLineData (data.candles.map (convertCandleToAreaData tz))
          ∈ updateChart opts
            { chart := st.chart, legendElement := st.legendElement
              candlestickSeries := st.candlestickSeries
              lineSeries := st.lineSeries
              volumeSeries := st.volumeSeries, sdk := st.sdk, chartData := data
              currentPrice := st.currentPrice, priceChange := st.priceChange
              previousCandleCount := st.previousCandleCount
              isInitialLoad := b, previousPrice := st.previousPrice } tz data) ∧
      (opts.showVolume = true →
        ChartEffect.setVolumeData
            (data.candles.map (convertCandleToVolumeData opts tz))
          ∈ updateChart opts
            { chart := st.chart, legendElement := st.legendElement
              candlestickSeries := st.candlestickSeries
              lineSeries := st.lineSeries
              volumeSeries := st.volumeSeries, sdk := st.sdk, chartData := data
              currentPrice := st.currentPrice, priceChange := st.priceChange
              previousCandleCount := st.previousCandleCount
              isInitialLoad := b, previousPrice := st.previousPrice } tz data) ∧
      ChartEffect.fitContent
        ∈ updateChart opts
            { chart := st.chart, legendElement := st.legendElement
              candlestickSeries := st.candlestickSeries
              lineSeries := st.lineSeries
              volumeSeries := st.volumeSeries, sdk := st.sdk, chartData := data
              currentPrice := st.currentPrice, priceChange := st.priceChange
              previousCandleCount := st.previousCandleCount
              isInitialLoad := b, previousPrice := st.previousPrice } tz data := by
    intro b
    have hwfb : StateWf opts
        { chart := st.chart, legendElement := st.legendElement
          candlestickSeries := st.candlestickSeries
          lineSeries := st.lineSeries
          volumeSeries := st.volumeSeries, sdk := st.sdk, chartData := data
          currentPrice := st.currentPrice, priceChange := st.priceChange
          previousCandleCount := st.previousCandleCount
          isInitialLoad := b, previousPrice := st.previousPrice } := by
      obtain ⟨h1, h2, h3, h4, h5, h6⟩ := hwf
      exact ⟨h1, h2, h3, h4, h5, h6⟩
    obtain ⟨a1, a2, a3, a4, a5, a6⟩ := updateChart_effects opts _ tz data hwfb hN
    exact ⟨a1, a2, a3, a4⟩
  have key : ∀ e : ChartEffect,
      (∀ b : Bool, e ∈ updateChart opts
        { chart := st.chart, legendElement := st.legendElement
          candlestickSeries := st.candlestickSeries
          lineSeries := st.lineSeries
          volumeSeries := st.volumeSeries, sdk := st.sdk, chartData := data
          currentPrice := st.currentPrice, priceChange := st.priceChange
          previousCandleCount := st.previousCandleCount
          isInitialLoad := b, previousPrice := st.previousPrice } tz data) →
      e ∈ (handleChartUpdate opts st tz data).2 := by
    intro e he
    rcases hcond with h | h | h
    · simp only [handleChartUpdate, h]
      simp
      exact Or.inl (he true)
    · have h' : ¬((0 : Int) ≤
          (data.candles.length : Int) - (st.previousCandleCount : Int)) := by
        omega
      simp only [handleChartUpdate]
      simp [h']
      exact Or.inl (he st.isInitialLoad)
    · have h' : ¬((data.candles.length : Int) - (st.previousCandleCount : Int)
          ≤ MAX_INCREMENTAL_CANDLES) := by
        simp only [MAX_INCREMENTAL_CANDLES]; omega
      simp only [handleChartUpdate]
      simp [h']
      exact Or.inl (he st.isInitialLoad)
  refine ⟨fun h => key _ (fun b => (hmain b).1 h),
    fun h => key _ (fun b => (hmain b).2.1 h),
    fun h => key _ (fun b => (hmain b).2.2.1 h),
    key _ (fun b => (hmain b).2.2.2)⟩

/-- C3 counterexample: a shrinking delivery (previous count 5) that
carries no candles has negative diff, yet neither a setData call nor a
fit-to-content request is issued — the claim needs the snapshot to be
non-empty. -/
theorem C3_counterexample :
    demoStateP5.isInitialLoad = false ∧
    (demoEmptySnapshot.candles.length : Int)
      - (demoStateP5.previousCandleCount : Int) < 0 ∧
    countSetData
      (handleChartUpdate demoOptions demoStateP5 tzZero demoEmptySnapshot).2
      = 0 ∧
    ChartEffect.fitContent ∉
      (handleChartUpdate demoOptions demoStateP5 tzZero demoEmptySnapshot).2 := by
  decide

/-- C3 witness: the full-replace theorem applied to a concrete first
delivery of a two-candle snapshot. -/
theorem C3_full_replace_witness :
    StateWf demoOptions demoFreshState ∧
    demoFreshState.isInitialLoad = true ∧
    demoSnapshot2.candles.length > 0 ∧
    ChartEffect.setChartData
        (demoSnapshot2.candles.map (convertCandleToChartData tzZero))
      ∈ (handleChartUpdate demoOptions demoFreshState tzZero demoSnapshot2).2 ∧
    ChartEffect.setVolumeData
        (demoSnapshot2.candles.map (convertCandleToVolumeData demoOptions tzZero))
      ∈ (handleChartUpdate demoOptions demoFreshState tzZero demoSnapshot2).2 ∧
    ChartEffect.fitContent
      ∈ (handleChartUpdate demoOptions demoFreshState tzZero demoSnapshot2).2 := by
  have h := C3_full_replace demoOptions demoFreshState tzZero demoSnapshot2
    (by unfold StateWf; decide) (by decide) (Or.inl rfl)
  exact ⟨by unfold StateWf; decide, rfl, by decide, h.1 rfl, h.2.2.1 rfl,
    h.2.2.2⟩

/-- Helper: when the snapshot has fewer than two candles, or its first
candle's open price is not positive, handleChartUpdate leaves the stored
price change untouched. -/
theorem handleChartUpdate_priceChange_preserved (opts : WidgetOptions)
    (st : WidgetState) (tz : Int → Int) (data : ChartData)
    (hno : data.candles.length < 2 ∨
      (∀ first, data.candles.head? = some first → first.OpenPrice ≤ 0)) :
    (handleChartUpdate opts st tz data).1.priceChange = st.priceChange := by
  rcases Nat.lt_or_ge data.candles.length 1 with h0 | h1
  · have h0' : data.candles.length = 0 := by omega
    simp [handleChartUpdate, h0']
  · have hpos : 0 < data.candles.length := by omega
    obtain ⟨l, hl⟩ := Option.isSome_iff_exists.mp
      (List.getLast?_isSome.mpr (List.length_pos.mp hpos))
    obtain ⟨f, hf⟩ := Option.isSome_iff_exists.mp
      (List.head?_isSome.mpr (List.length_pos.mp hpos))
    by_cases h2 : 1 < data.candles.length
    · have hopen : ¬ (0 < f.OpenPrice) := by
        rcases hno with h | h
        · omega
        · exact not_lt.mpr (h f hf)
      simp only [handleChartUpdate, hl, hf, h2, hopen, hpos, gt_iff_lt,
        ite_true, ite_false, if_true, if_false, eq_self_iff_true]
      first
      | rfl
      | (split <;> (try split) <;>
          simp [updateSingleCandle, hl, hf, h2, hopen, hpos])
    · simp only [handleChartUpdate, hl, h2, hpos, gt_iff_lt, ite_true,
        ite_false, if_true, if_false, eq_self_iff_true]
      first
      | rfl
      | (split <;> (try split) <;>
          simp [updateSingleCandle, hl, h2, hpos])

/-- C10: after a snapshot delivery with at least two candles whose first
candle has a positive open price, the stored price change equals
(lastCandle.ClosePrice − firstCandle.OpenPrice) / firstCandle.OpenPrice
× 100; with fewer than two candles, or a non-positive first open price,
the previously stored value is retained. -/
theorem C10_price_change (opts : WidgetOptions) (st : WidgetState)
    (tz : Int → Int) (data : ChartData) :
    (∀ first latest, 2 ≤ data.candles.length →
      data.candles.head? = some first →
      data.candles.getLast? = some latest →
      0 < first.OpenPrice →
      (handleChartUpdate opts st tz data).1.priceChange =
        (latest.ClosePrice - first.OpenPrice) / first.OpenPrice * 100) ∧
    (data.candles.length < 2 →
      (handleChartUpdate opts st tz data).1.priceChange = st.priceChange) ∧
    (∀ first, data.candles.head? = some first → first.OpenPrice ≤ 0 →
      (handleChartUpdate opts st tz data).1.priceChange = st.priceChange) := by
  refine ⟨?_, ?_, ?_⟩
  · intro first latest h2 hfirst hlatest hopen
    have h0 : 0 < data.candles.length := by omega
    have h1 : 1 < data.candles.length := by omega
    simp only [handleChartUpdate, hlatest, hfirst, h0, h1, hopen, gt_iff_lt,
      ite_true, if_true, eq_self_iff_true]
  · intro hlt
    exact handleChartUpdate_priceChange_preserved opts st tz data (Or.inl hlt)
  · intro first hfirst hopen
    refine handleChartUpdate_priceChange_preserved opts st tz data (Or.inr ?_)
    intro f hf
    rw [hfirst] at hf
    cases hf
    exact hopen

/-- C10 witness: the price-change theorem applied to a concrete
two-candle snapshot (open 1, last close 2, so the stored change becomes
100 percent). -/
theorem C10_price_change_witness :
    2 ≤ demoSnapshot2.candles.length ∧
    demoSnapshot2.candles.head? = some demoCandleA ∧
    demoSnapshot2.candles.getLast? = some demoCandleC ∧
    0 < demoCandleA.OpenPrice ∧
    (handleChartUpdate demoOptions demoReadyState tzZero demoSnapshot2).1.priceChange =
      (demoCandleC.ClosePrice - demoCandleA.OpenPrice)
        / demoCandleA.OpenPrice * 100 := by
  refine ⟨by decide, rfl, rfl, by decide, ?_⟩
  exact (C10_price_change demoOptions demoReadyState tzZero demoSnapshot2).1
    demoCandleA demoCandleC (by decide) rfl rfl (by decide)

/-- C5 witness: the first-match characterization applied to a concrete
search. -/
theorem C5_first_within_60s_witness :
    findMatchingCandle tzZero [demoCandleA, demoCandleB] 159 = some demoCandleA ∧
    (((demoCandleA.Timestamp - tzZero demoCandleA.Timestamp * 60) - 159).natAbs
        < 60 ∧
      ∃ pre post, [demoCandleA, demoCandleB] = pre ++ demoCandleA :: post ∧
        ∀ c' ∈ pre,
          ¬ ((c'.Timestamp - tzZero c'.Timestamp * 60) - 159).natAbs < 60) :=
  ⟨by decide,
    (C5_first_within_60s tzZero [demoCandleA, demoCandleB] 159
      demoCandleA).mp (by decide)⟩

/-- The legend routine never dereferences a null reference. -/
theorem updateLegend_no_nullDeref (opts : WidgetOptions) (st : WidgetState)
    (tz : Int → Int) (param : Option CrosshairParam) :
    (updateLegend opts st tz param).any effectIsNullDeref = false := by
  unfold updateLegend
  split
  · rfl
  · rename_i h
    cases hL : st.legendElement with
    | none => rw [hL] at h; simp at h
    | some u => simp [hL, derefEffect, effectIsNullDeref]

/-- The full-replace routine never dereferences a null reference. -/
theorem updateChart_no_nullDeref (opts : WidgetOptions) (st : WidgetState)
    (tz : Int → Int) (data : ChartData) :
    (updateChart opts st tz data).any effectIsNullDeref = false := by
  unfold updateChart
  split
  · rfl
  · simp only [List.any_append, Bool.or_eq_false_iff]
    refine ⟨⟨?_, ?_⟩, ?_⟩
    · split
      · rename_i h
        simp [derefEffect_of_isSome _ _ h.2, effectIsNullDeref]
      · split
        · rename_i h
          simp [derefEffect_of_isSome _ _ h.2, effectIsNullDeref]
        · rfl
    · split
      · rename_i h
        simp [derefEffect_of_isSome _ _ h.2, effectIsNullDeref]
      · rfl
    · split
      · rename_i h
        simp [derefEffect_of_isSome _ _ h.1, effectIsNullDeref]
      · rfl

/-- The single-point upsert routine never dereferences a null
reference. -/
theorem updateSingleCandle_no_nullDeref (opts : WidgetOptions)
    (st : WidgetState) (tz : Int → Int) (candle : Candle) :
    (updateSingleCandle opts st tz candle).2.any effectIsNullDeref = false := by
  unfold updateSingleCandle
  simp only [List.any_append, Bool.or_eq_false_iff]
  refine ⟨⟨?_, ?_⟩, ?_⟩
  · split
    · rename_i h
      simp [derefEffect_of_isSome _ _ h.2, effectIsNullDeref]
    · split
      · rename_i h
        simp [derefEffect_of_isSome _ _ h.2, effectIsNullDeref]
      · rfl
  · split
    · rename_i h
      simp [derefEffect_of_isSome _ _ h.2, effectIsNullDeref]
    · rfl
  · split
    · rename_i h
      simp [derefEffect_of_isSome _ _ h, effectIsNullDeref]
    · rfl

/-- The snapshot handler never dereferences a null reference, in any
state. -/
theorem handleChartUpdate_no_nullDeref (opts : WidgetOptions)
    (st : WidgetState) (tz : Int → Int) (data : ChartData) :
    (handleChartUpdate opts st tz data).2.any effectIsNullDeref = false := by
  unfold handleChartUpdate
  repeat' split <;>
    first
    | rfl
    | simp only [List.any_append, Bool.or_eq_false_iff, List.any_nil,
        List.any_cons, updateSingleCandle_no_nullDeref,
        updateChart_no_nullDeref, updateLegend_no_nullDeref, effectIsNullDeref,
        Bool.false_or, Bool.or_false, and_self, and_true, true_and]
    | skip

/-- The trade handler never dereferences a null reference, in any
state. -/
theorem handleTrade_no_nullDeref (opts : WidgetOptions) (st : WidgetState)
    (tz : Int → Int) (trade : RealTimeTrade) :
    (handleTrade opts st tz trade).2.any effectIsNullDeref = false := by
  unfold handleTrade
  repeat' split <;>
    first
    | rfl
    | simp only [List.any_append, Bool.or_eq_false_iff, List.any_nil,
        List.any_cons, updateSingleCandle_no_nullDeref,
        updateLegend_no_nullDeref, effectIsNullDeref,
        Bool.false_or, Bool.or_false, and_self, and_true, true_and]
    | skip

/-- The crosshair-move handler never dereferences a null reference, in
any state. -/
theorem crosshairMoveHandler_no_nullDeref (opts : WidgetOptions)
    (st : WidgetState) (tz : Int → Int) (param : Option CrosshairParam) :
    (crosshairMoveHandler opts st tz param).any effectIsNullDeref = false := by
  unfold crosshairMoveHandler
  split
  · exact updateLegend_no_nullDeref opts st tz param
  · rfl

/-- C4: destroy() nulls the SDK and chart references, and any later
firing of the chart-update, trade or crosshair-move callbacks on the
destroyed state performs no member access on a null reference — every
path either guards on the nulled references or completes without a
TypeError. -/
theorem C4_post_destroy_no_throw (opts : WidgetOptions) (st : WidgetState)
    (tz : Int → Int) (data : ChartData) (trade : RealTimeTrade)
    (param : Option CrosshairParam) :
    (destroy st).1.sdk = none ∧
    (destroy st).1.chart = none ∧
    (handleChartUpdate opts (destroy st).1 tz data).2.any effectIsNullDeref
      = false ∧
    (handleTrade opts (destroy st).1 tz trade).2.any effectIsNullDeref
      = false ∧
    (crosshairMoveHandler opts (destroy st).1 tz param).any effectIsNullDeref
      = false := by
  refine ⟨?_, ?_, handleChartUpdate_no_nullDeref _ _ _ _,
    handleTrade_no_nullDeref _ _ _ _, crosshairMoveHandler_no_nullDeref _ _ _ _⟩
  · cases hs : st.sdk <;> cases hc : st.chart <;> simp [destroy, hs, hc]
  · cases hs : st.sdk <;> cases hc : st.chart <;> simp [destroy, hs, hc]

/-- C8 counterexample: creating the widget with a container that does
not resolve still returns the widget handle to the caller — the
constructor completes instead of failing fast; the container error is
confined to the asynchronous initialization outcome. -/
theorem C8_counterexample :
    (constructWidget demoOptions none).handleReturned = true ∧
    (constructWidget demoOptions none).init.isOk = false :=
  ⟨rfl, rfl⟩

/-- C8 amended: when the container does not resolve, initializeChart
throws the container error and the initialization sequence aborts (its
outcome is that error; the only effect is the WebSocket connect opened
before chart initialization, so no token data load is issued) — but the
constructor has already returned the widget handle, so construction
itself does not fail fast and nothing propagates synchronously to the
caller. -/
theorem C8_container_not_found (opts : WidgetOptions) (st : WidgetState) :
    initializeChart opts none st =
      Except.error ("Chart container not found: " ++ opts.container) ∧
    (constructWidget opts none).handleReturned = true ∧
    (constructWidget opts none).init =
      Except.error ("Chart container not found: " ++ opts.container) ∧
    (constructWidget opts none).effects = [ChartEffect.connectWebSocket] :=
  ⟨rfl, rfl, rfl, rfl⟩

/-- C9 counterexample: a transport that first reports connected at poll
51 (elapsed 5100 ms, strictly past the 5000 ms ceiling) never reports
connected within the ceiling — all polls at elapsed ≤ 5000 ms see
disconnected — yet the wait resolves true and the subscribe call is
issued: the status is checked once more before the elapsed-time check
fires. -/
theorem C9_counterexample :
    (List.range 51).all (fun k => !demoConnectedLate k) = true ∧
    waitForWebSocketConnection demoConnectedLate 5000 = true ∧
    delayedSubscribe true demoConnectedLate "1-0xabc" =
      [ChartEffect.subscribe "1-0xabc"] := by
  decide

/-- C9 amended: if the transport reports disconnected at every poll up
to and including the first poll past the ceiling (poll k at elapsed
100·k ms, so k ≤ 51 for the 5000 ms ceiling), the wait resolves false
and the delayed continuation silently gives up: no subscribe call is
issued and no error is surfaced. -/
theorem C9_silent_give_up (connected : Nat → Bool)
    (h : ∀ k, k ≤ 51 → connected k = false) :
    waitForWebSocketConnection connected 5000 = false ∧
    ∀ sdkPresent tokenId,
      delayedSubscribe sdkPresent connected tokenId = [] := by
  have main : ∀ fuel k, k + fuel = 52 →
      checkConnection connected 5000 k fuel = false := by
    intro fuel
    induction fuel with
    | zero => intro k _; rfl
    | succ n ih =>
      intro k hk
      have hck := h k (by omega)
      unfold checkConnection
      simp only [hck, Bool.false_eq_true, if_false]
      by_cases hcap : 100 * k > 5000
      · simp [hcap]
      · simp only [hcap, if_false]
        exact ih (k + 1) (by omega)
  have hwait : waitForWebSocketConnection connected 5000 = false :=
    main 52 0 rfl
  refine ⟨hwait, ?_⟩
  intro sdkPresent tokenId
  unfold delayedSubscribe
  rw [hwait]
  cases sdkPresent <;> simp

/-- C9 witness: the silent-give-up theorem applied to a transport that
never connects. -/
theorem C9_silent_give_up_witness :
    (∀ k, k ≤ 51 → demoNeverConnected k = false) ∧
    waitForWebSocketConnection demoNeverConnected 5000 = false ∧
    delayedSubscribe true demoNeverConnected "1-0xabc" = [] :=
  ⟨fun _ _ => rfl,
    (C9_silent_give_up demoNeverConnected (fun _ _ => rfl)).1,
    (C9_silent_give_up demoNeverConnected (fun _ _ => rfl)).2 true "1-0xabc"⟩

end FiPulse
